import Mathlib

/-!
Shallow embedding of the emulator session lifecycle controller in
`frontend/src/views/Player/EmulatorJS/Player.vue` (and the cheat REST client
`services/api/cheat.ts`), together with theorems settling the frozen claims
about it.  Effectful JS code is embedded as pure functions from the relevant
external outcomes (backend responses, runtime-surface capabilities) to call
traces and updated session states.
-/

namespace RommPlayer

/-- One cheat record as returned by the backend, mirroring the `CheatCode`
interface declared in Player.vue (id, name, code, description, type, romId). -/
structure CheatCode where
  id : String
  name : String
  code : String
  description : String
  cheatType : String
  romId : String
deriving Repr, DecidableEq

/-- `formatCheatCodesForEmulatorJS` (Player.vue lines 445-456): the early
return for a null/empty input, else `cheatCodes.map((code) => [code.name, code.code])`. -/
def formatCheatCodesForEmulatorJS (cheatCodes : List CheatCode) : List (String × String) :=
  if cheatCodes.isEmpty then []
  else cheatCodes.map (fun c => (c.name, c.code))

/-- The subset of the `window.EJS_emulator` surface that
`updateEmulatorCheats` capability-checks before calling: whether
`EJS_emulator?.gameManager` is present and whether `resetCheat`, `setCheat`
and `updateCheatUI` are functions on it. -/
structure EmulatorSurface where
  gameManagerPresent : Bool
  hasResetCheat : Bool
  hasSetCheat : Bool
  hasUpdateCheatUI : Bool
deriving Repr, DecidableEq

/-- A call into the native cheat surface of the runtime. -/
inductive NativeCall where
  | resetCheat : NativeCall
  | setCheat (index : Nat) (enabled : Bool) (code : String) : NativeCall
  | updateCheatUI : NativeCall
deriving Repr, DecidableEq

/-- `updateEmulatorCheats` (Player.vue lines 462-545) as the list of native
calls it issues, given the runtime surface and the current `window.EJS_cheats`
buffer.  Faithful control flow:
* `!window.EJS_emulator?.gameManager` returns with no calls;
* the first `gameManager.resetCheat()` (line 472) throws a TypeError when
  `resetCheat` is not a function, reaching the outer catch with no calls made;
* otherwise the first reset happens, the second availability guard passes
  (the surface is unchanged), the cheats array is built with `checked: false`,
  and if `resetCheat`/`setCheat` are not both functions the update stops there;
* otherwise the second `resetCheat()` (line 513) runs, then one
  `setCheat(index, cheat.checked, cheat.code)` per entry in order, then
  `updateCheatUI()` when present. -/
def updateEmulatorCheats (em : EmulatorSurface) (ejsCheats : List (String × String)) :
    List NativeCall :=
  if !em.gameManagerPresent then []
  else if !em.hasResetCheat then []
  else if !(em.hasResetCheat && em.hasSetCheat) then [NativeCall.resetCheat]
  else
    NativeCall.resetCheat :: NativeCall.resetCheat ::
      (ejsCheats.enum.map (fun p => NativeCall.setCheat p.1 false p.2.2) ++
        (if em.hasUpdateCheatUI then [NativeCall.updateCheatUI] else []))

/-- Is this native call a cheat-table write (reset or set), as opposed to the
UI refresh? -/
def isCheatTableCall : NativeCall → Bool
  | NativeCall.updateCheatUI => false
  | _ => true

/-- The cheat-table portion of a native-call trace: the reset and set calls,
excluding the UI refresh. -/
def cheatTableCalls (trace : List NativeCall) : List NativeCall :=
  trace.filter isCheatTableCall

/-- A runtime surface with the full cheat method set available. -/
def fullSurface : EmulatorSurface :=
  { gameManagerPresent := true, hasResetCheat := true, hasSetCheat := true,
    hasUpdateCheatUI := true }

/-- The CheatBuffer of the specification scenario. -/
def demoBuffer : List (String × String) :=
  [("Infinite Lives", "SXYIZVSE"), ("Invincibility", "AEKZZZIA")]

/-- The outcome of the backend request made by `getCheatCodes`: the promise
rejects, or resolves with a null/undefined body, or resolves with a list. -/
inductive FetchOutcome where
  | rejected : FetchOutcome
  | resolvedNull : FetchOutcome
  | resolvedList (codes : List CheatCode) : FetchOutcome
deriving Repr, DecidableEq

/-- `getCheatCodes` (services/api/cheat.ts lines 59-67): returns
`response.data` on success and logs then rethrows the error on failure.
Embedded as an `Except`: the thrown error propagates to the caller. -/
def getCheatCodesResult (backend : FetchOutcome) : Except String (Option (List CheatCode)) :=
  match backend with
  | FetchOutcome.rejected => Except.error "network error"
  | FetchOutcome.resolvedNull => Except.ok none
  | FetchOutcome.resolvedList cs => Except.ok (some cs)

/-- What a run of the cheat fetch wrapper produced: the returned list, the
transient error messages displayed, and the console error lines logged. -/
structure FetchRun where
  codes : List CheatCode
  errorNotices : List String
  errorLogs : List String
deriving Repr, DecidableEq

/-- `fetchCheatCodes` (Player.vue lines 412-426) in the exception monad of its
caller: the try/catch turns a rejected `getCheatCodes` into a logged error, a
displayed error message and the return value `[]`; a null/undefined body
becomes `[]` through `cheatCodes || []`; a list is returned as is (an empty
array is truthy in JS, so `[] || []` is still `[]`).  Every branch is `ok` -
no exception escapes. -/
def fetchCheatCodesE (backend : FetchOutcome) : Except String FetchRun :=
  match getCheatCodesResult backend with
  | Except.error _e =>
      Except.ok { codes := [], errorNotices := ["Failed to fetch cheat codes from server"],
                  errorLogs := ["Error fetching cheat codes"] }
  | Except.ok none => Except.ok { codes := [], errorNotices := [], errorLogs := [] }
  | Except.ok (some cs) => Except.ok { codes := cs, errorNotices := [], errorLogs := [] }

/-- What a run of `loadCheatCodes` produced: the resulting `window.EJS_cheats`
buffer and the error messages displayed/logged along the way. -/
structure CheatLoad where
  buffer : List (String × String)
  errorNotices : List String
  errorLogs : List String
deriving Repr, DecidableEq

/-- `loadCheatCodes` (Player.vue lines 124-142): clear `window.EJS_cheats`,
await `fetchCheatCodes`, and only when the result is non-empty assign the
formatted buffer.  Its own catch clause (reachable only if the fetch wrapper
threw, which it never does) would log and display a distinct message. -/
def loadCheatCodesRun (backend : FetchOutcome) : CheatLoad :=
  match fetchCheatCodesE backend with
  | Except.ok r =>
      if r.codes.length > 0 then
        { buffer := formatCheatCodesForEmulatorJS r.codes,
          errorNotices := r.errorNotices, errorLogs := r.errorLogs }
      else
        { buffer := [], errorNotices := r.errorNotices, errorLogs := r.errorLogs }
  | Except.error _e =>
      { buffer := [], errorNotices := ["Failed to load cheat codes"],
        errorLogs := ["Error loading cheat codes"] }

/-- The backend response to a save/state artifact download: `absent` stands
for a null/undefined `data`, `blob bs` for an ArrayBuffer holding bytes `bs`
(possibly zero of them). -/
inductive ArtifactResponse where
  | absent : ArtifactResponse
  | blob (bytes : List Nat) : ArtifactResponse
deriving Repr, DecidableEq

/-- JS truthiness of the `data` value tested by `if (data)`: null/undefined is
falsy; any ArrayBuffer object, a zero-length one included, is truthy. -/
def jsTruthy : ArtifactResponse → Bool
  | ArtifactResponse.absent => false
  | ArtifactResponse.blob _ => true

/-- The bytes wrapped by `new Uint8Array(data)` on the truthy branch. -/
def respBytes : ArtifactResponse → List Nat
  | ArtifactResponse.absent => []
  | ArtifactResponse.blob bs => bs

/-- How the pull path fed the runtime: the native load method called directly
with downloaded bytes, or the native `selectFile()` prompt followed by loading
the picked file's bytes. -/
inductive LoadAction where
  | loadDirect (bytes : List Nat) : LoadAction
  | selectFileThenLoad (bytes : List Nat) : LoadAction
deriving Repr, DecidableEq

/-- Outcome of one pull: the load action taken and the messages displayed. -/
structure PullRun where
  action : LoadAction
  notices : List String
deriving Repr, DecidableEq

/-- `loadSave` (Player.vue lines 230-247): fetch the blob; `if (data)` load it
via `loadEmulatorJSSave` and display a message; otherwise fall through to
`EJS_emulator.selectFile()` and load the picked local file. -/
def loadSave (resp : ArtifactResponse) (localFile : List Nat) : PullRun :=
  if jsTruthy resp then
    { action := LoadAction.loadDirect (respBytes resp),
      notices := ["Save loaded from server"] }
  else
    { action := LoadAction.selectFileThenLoad localFile, notices := [] }

/-- `loadState` (Player.vue lines 283-298): identical control flow to
`loadSave` with the state load method and message. -/
def loadState (resp : ArtifactResponse) (localFile : List Nat) : PullRun :=
  if jsTruthy resp then
    { action := LoadAction.loadDirect (respBytes resp),
      notices := ["State loaded from server"] }
  else
    { action := LoadAction.selectFileThenLoad localFile, notices := [] }

/-- The artifact kind of a push. -/
inductive ArtifactKind where
  | save : ArtifactKind
  | state : ArtifactKind
deriving Repr, DecidableEq

/-- One observable effect of a push handler. -/
inductive PushCall where
  | backendUpload (kind : ArtifactKind) (bytes : List Nat) : PushCall
  | localStoragePut (key : String) (bytes : List Nat) : PushCall
  | storeUpdate : PushCall
  | notify (success : Bool) (msg : String) : PushCall
deriving Repr, DecidableEq

/-- Recognizes a write into the runtime's browser-local storage. -/
def localPutOf : PushCall → Bool
  | PushCall.localStoragePut _ _ => true
  | _ => false

/-- Modelled from the spec: the `saveState` helper imported from `./utils` is
not under src/.  Per the spec's push path and failure taxonomy it uploads the
blob and screenshot to the backend and resolves with the stored record on
success or a failure indication on error, never throwing; here its outcome is
the `uploadSucceeds` flag.  `window.EJS_onSaveState` (Player.vue lines
306-334) then always performs `storage.states.put(getBaseFileName() +
".state", stateFile)`, updates the rom store, and notifies success or
failure. -/
def onSaveState (uploadSucceeds : Bool) (baseFileName : String) (stateFile : List Nat) :
    List PushCall :=
  [PushCall.backendUpload ArtifactKind.state stateFile,
   PushCall.localStoragePut (baseFileName ++ ".state") stateFile,
   PushCall.storeUpdate,
   if uploadSucceeds then PushCall.notify true "State synced with server"
   else PushCall.notify false "Error syncing state with server"]

/-- Modelled from the spec: the `saveSave` helper imported from `./utils` is
not under src/; like `saveState` it resolves with success or failure, never
throwing.  `window.EJS_onSaveSave` (Player.vue lines 255-280) awaits it,
updates the rom store and notifies - it performs no browser-local storage
write. -/
def onSaveSave (uploadSucceeds : Bool) (saveFile : List Nat) : List PushCall :=
  [PushCall.backendUpload ArtifactKind.save saveFile,
   PushCall.storeUpdate,
   if uploadSucceeds then PushCall.notify true "Save synced with server"
   else PushCall.notify false "Error syncing save with server"]

/-- The core resolution at Player.vue lines 87-89:
`supportedCores.find((core) => core === props.core) ?? supportedCores[0]`,
with `props.core : string | null` embedded as an `Option` and the possibly
undefined `supportedCores[0]` as `head?`. -/
def resolveEJSCore (supportedCores : List String) (requested : Option String) :
    Option String :=
  match supportedCores.find? (fun core => decide (some core = requested)) with
  | some c => some c
  | none => supportedCores.head?

/-- The mutable state of one mounted Player session that the claims are
about: the `window.EJS_cheats` buffer, the single `cheatUpdateTimeout` slot
(timer ids are drawn from a counter, so a fresh id is never a stale one), the
bookkeeping of cancelled and fired timer generations, the cumulative trace of
native cheat-table calls, the displayed/logged error messages, the two
`mitt` emitter registrations made in `onMounted`, the `window.EJS_*` callback
assignments made at setup, and the playing/fullscreen store flags. -/
structure SessionState where
  ejsCheats : List (String × String)
  pendingTimer : Option Nat
  nextTimerId : Nat
  cancelLog : List Nat
  firedGens : List Nat
  nativeLog : List NativeCall
  notices : List String
  errorLogs : List String
  emitterSaveSel : Bool
  emitterStateSel : Bool
  ejsGameStartRegistered : Bool
  playing : Bool
  fullScreen : Bool
  unmounted : Bool
deriving Repr, DecidableEq

/-- The session right after a completed mount: empty buffer and logs, no
pending timer, emitter handlers on, `window.EJS_*` callbacks assigned,
playing. -/
def mountedState : SessionState :=
  { ejsCheats := [], pendingTimer := none, nextTimerId := 0, cancelLog := [],
    firedGens := [], nativeLog := [], notices := [], errorLogs := [],
    emitterSaveSel := true, emitterStateSel := true,
    ejsGameStartRegistered := true, playing := true, fullScreen := false,
    unmounted := false }

/-- `clearTimeout` on the pending slot when it is non-null, recording the
cancelled generation. -/
def clearPendingTimer (s : SessionState) : SessionState :=
  match s.pendingTimer with
  | some id => { s with pendingTimer := none, cancelLog := s.cancelLog ++ [id] }
  | none => s

/-- The scheduling tail of `window.EJS_onGameStart` (Player.vue lines
349-360): `if (cheatUpdateTimeout.value !== null) clearTimeout(...)`, then
`cheatUpdateTimeout.value = window.setTimeout(...)` with a fresh timer id. -/
def scheduleCheatUpdate (s : SessionState) : SessionState :=
  let s1 := clearPendingTimer s
  { s1 with pendingTimer := some s1.nextTimerId, nextTimerId := s1.nextTimerId + 1 }

/-- The settled body of `window.EJS_onGameStart`: `await loadCheatCodes()`
updates the buffer and accumulates its messages, then the deferred direct
cheat application is scheduled. -/
def gameStartSettleStep (backend : FetchOutcome) (s : SessionState) : SessionState :=
  let r := loadCheatCodesRun backend
  scheduleCheatUpdate
    { s with ejsCheats := r.buffer,
             notices := s.notices ++ r.errorNotices,
             errorLogs := s.errorLogs ++ r.errorLogs }

/-- The browser firing timer `id`: the callback runs only when that timer is
still the pending one (a cleared timeout never fires); it then runs
`updateEmulatorCheats()` against the current buffer and nulls the slot
(Player.vue lines 356-360). -/
def fireTimerStep (em : EmulatorSurface) (id : Nat) (s : SessionState) : SessionState :=
  if s.pendingTimer = some id then
    { s with nativeLog := s.nativeLog ++ updateEmulatorCheats em s.ejsCheats,
             firedGens := s.firedGens ++ [id],
             pendingTimer := none }
  else s

/-- `onBeforeUnmount` (Player.vue lines 193-205): clear the pending timeout
when non-null, `emitter.off` the two handlers registered in `onMounted`, and
reset the fullscreen and playing flags.  The `window.EJS_*` callback
assignments are not touched. -/
def onBeforeUnmountStep (s : SessionState) : SessionState :=
  let s1 := clearPendingTimer s
  { s1 with emitterSaveSel := false, emitterStateSel := false,
            fullScreen := false, playing := false, unmounted := true }

/-- The session-level events the claims quantify over. -/
inductive SessionEvent where
  | gameStartSettle (backend : FetchOutcome) : SessionEvent
  | timerFire (id : Nat) : SessionEvent
  | unmount : SessionEvent
deriving Repr, DecidableEq

/-- Is this event a browser timer firing? -/
def isTimerFire : SessionEvent → Bool
  | SessionEvent.timerFire _ => true
  | _ => false

/-- One event-loop step of the session. -/
def step (em : EmulatorSurface) (s : SessionState) : SessionEvent → SessionState
  | SessionEvent.gameStartSettle backend => gameStartSettleStep backend s
  | SessionEvent.timerFire id => fireTimerStep em id s
  | SessionEvent.unmount => onBeforeUnmountStep s

/-- The session state after a sequence of events. -/
def runSession (em : EmulatorSurface) (s : SessionState) (events : List SessionEvent) :
    SessionState :=
  events.foldl (step em) s

/-- The timer bookkeeping invariant: the pending generation is fresh against
both logs, every logged generation is below the counter, and no cancelled
generation ever fired. -/
def TimerInv (s : SessionState) : Prop :=
  (∀ id, s.pendingTimer = some id →
      id < s.nextTimerId ∧ id ∉ s.cancelLog ∧ id ∉ s.firedGens) ∧
  (∀ id ∈ s.cancelLog, id < s.nextTimerId) ∧
  (∀ id ∈ s.firedGens, id < s.nextTimerId) ∧
  (∀ id ∈ s.cancelLog, id ∉ s.firedGens)

/-- A concrete event sequence with two rapid game-start settlements: the
second schedules while the first generation is still pending. -/
def twoStartsEvents : List SessionEvent :=
  [SessionEvent.gameStartSettle FetchOutcome.resolvedNull,
   SessionEvent.gameStartSettle FetchOutcome.resolvedNull]

/-- Every element that a set-cheat mapping produces is a cheat-table call. -/
theorem filter_setCheat_map (l : List (Nat × (String × String))) :
    (l.map (fun p => NativeCall.setCheat p.1 false p.2.2)).filter isCheatTableCall =
      l.map (fun p => NativeCall.setCheat p.1 false p.2.2) := by
  induction l with
  | nil => rfl
  | cons a t ih => simp [List.filter, isCheatTableCall, ih]

/-- Claim C1: the Cheat Source Adapter returns exactly the (name, code)
projection of its input, so order and length are preserved and the empty
input maps to the empty output; as a Lean function it is pure and
deterministic by construction. -/
theorem formatCheats_preserves_order_and_length (l : List CheatCode) :
    formatCheatCodesForEmulatorJS l = l.map (fun c => (c.name, c.code)) ∧
    (formatCheatCodesForEmulatorJS l).length = l.length ∧
    formatCheatCodesForEmulatorJS [] = [] := by
  refine ⟨?_, ?_, rfl⟩
  · cases l <;> simp [formatCheatCodesForEmulatorJS]
  · cases l <;> simp [formatCheatCodesForEmulatorJS]

/-- Claim C2, counterexample: on the specification's two-entry buffer with the
full runtime surface, the cheat-table call sequence issued by
`updateEmulatorCheats` is not the claimed
reset, set(0,false,SXYIZVSE), set(1,false,AEKZZZIA) - the source resets the
cheat table twice (Player.vue lines 472 and 513) before applying entries. -/
theorem updateEmulatorCheats_not_single_reset :
    cheatTableCalls (updateEmulatorCheats fullSurface demoBuffer) ≠
      [NativeCall.resetCheat, NativeCall.setCheat 0 false "SXYIZVSE",
       NativeCall.setCheat 1 false "AEKZZZIA"] := by
  decide

/-- Claim C2, amended: whenever the game manager is present and exposes both
cheat methods, the direct native cheat-apply issues exactly two
reset-cheat-table calls, then one set-cheat(index, false, code) call per
buffer entry, in buffer order with consecutive indices starting at 0 and the
disabled flag. -/
theorem updateEmulatorCheats_trace (em : EmulatorSurface) (buf : List (String × String))
    (h1 : em.gameManagerPresent = true) (h2 : em.hasResetCheat = true)
    (h3 : em.hasSetCheat = true) :
    cheatTableCalls (updateEmulatorCheats em buf) =
      NativeCall.resetCheat :: NativeCall.resetCheat ::
        buf.enum.map (fun p => NativeCall.setCheat p.1 false p.2.2) := by
  cases h4 : em.hasUpdateCheatUI <;>
    simp [updateEmulatorCheats, h1, h2, h3, h4, cheatTableCalls, List.filter,
      List.filter_append, isCheatTableCall, filter_setCheat_map]

/-- Witness for C2's amended theorem at the specification scenario. -/
theorem updateEmulatorCheats_trace_witness :
    cheatTableCalls (updateEmulatorCheats fullSurface demoBuffer) =
      [NativeCall.resetCheat, NativeCall.resetCheat,
       NativeCall.setCheat 0 false "SXYIZVSE",
       NativeCall.setCheat 1 false "AEKZZZIA"] := by
  rw [updateEmulatorCheats_trace fullSurface demoBuffer rfl rfl rfl]
  rfl

/-- Claim C5, counterexample: a present-but-empty backend blob (a zero-length
ArrayBuffer is truthy in JS) is handed directly to the native load method for
both pulls, instead of the claimed fall-through to local file selection - so
the native load method can be called with an empty blob. -/
theorem pull_empty_blob_loaded_directly :
    (loadSave (ArtifactResponse.blob []) [7]).action = LoadAction.loadDirect [] ∧
    (loadState (ArtifactResponse.blob []) [7]).action = LoadAction.loadDirect [] ∧
    (loadSave (ArtifactResponse.blob []) [7]).action ≠ LoadAction.selectFileThenLoad [7] := by
  decide

/-- Claim C5, amended: the pull falls through to the runtime's native
file-selection path exactly when the backend response is absent
(null/undefined); any present blob - a zero-length one included - is loaded
directly and the file-selection prompt is not shown. -/
theorem pull_fallthrough_iff_absent (localFile bs : List Nat) :
    (loadSave ArtifactResponse.absent localFile).action =
      LoadAction.selectFileThenLoad localFile ∧
    (loadState ArtifactResponse.absent localFile).action =
      LoadAction.selectFileThenLoad localFile ∧
    (loadSave (ArtifactResponse.blob bs) localFile).action = LoadAction.loadDirect bs ∧
    (loadState (ArtifactResponse.blob bs) localFile).action = LoadAction.loadDirect bs := by
  refine ⟨rfl, rfl, rfl, rfl⟩

/-- Claim C7, counterexample: the save-push handler issues no browser-local
storage write at all - only the state-push handler does - refuting the claim
for save artifacts. -/
theorem savePush_has_no_local_write :
    (onSaveSave true [1, 2, 3]).any localPutOf = false := by
  decide

/-- Claim C7, amended: a state push always writes the raw blob into the
runtime's browser-local storage keyed by the runtime-provided base filename,
independently of the backend upload outcome; a save push performs no
browser-local storage write. -/
theorem statePush_local_write_independent (uploadSucceeds : Bool) (base : String)
    (stateFile saveFile : List Nat) :
    PushCall.localStoragePut (base ++ ".state") stateFile ∈
      onSaveState uploadSucceeds base stateFile ∧
    PushCall.backendUpload ArtifactKind.state stateFile ∈
      onSaveState uploadSucceeds base stateFile ∧
    (onSaveSave uploadSucceeds saveFile).any localPutOf = false := by
  cases uploadSucceeds <;> simp [onSaveState, onSaveSave, localPutOf]

/-- The find over the supported-core list locates a requested member. -/
theorem find_core_of_mem {r : String} {l : List String} (h : r ∈ l) :
    l.find? (fun core => decide (core = r)) = some r := by
  induction l with
  | nil => cases h
  | cons a t ih =>
    by_cases ha : a = r
    · subst ha
      simp [List.find?]
    · have hr : r ∈ t := by
        cases h with
        | head => exact absurd rfl ha
        | tail _ h => exact h
      simp [List.find?, ha, ih hr]

/-- Claim C8: the effective core is the requested one whenever it belongs to
the platform's supported-core list, else the list's first entry (the platform
default, `undefined` when the list is empty); a null request also resolves to
the default, and no branch raises - the fallback is silent. -/
theorem ejs_core_resolution (supported : List String) (r : String) :
    (r ∈ supported → resolveEJSCore supported (some r) = some r) ∧
    (r ∉ supported → resolveEJSCore supported (some r) = supported.head?) ∧
    resolveEJSCore supported none = supported.head? := by
  refine ⟨?_, ?_, ?_⟩
  · intro h
    simp [resolveEJSCore, find_core_of_mem h]
  · intro h
    have hnone : supported.find? (fun core => decide (core = r)) = none := by
      rw [List.find?_eq_none]
      intro x hx
      simp
      intro hxr
      exact h (hxr ▸ hx)
    simp [resolveEJSCore, hnone]
  · have hnone : supported.find? (fun _core => false) = none := by
      rw [List.find?_eq_none]
      intro x hx
      simp
    simp [resolveEJSCore, hnone]

/-- Witness for C8 on a concrete platform core list. -/
theorem ejs_core_resolution_witness :
    resolveEJSCore ["fceumm", "nestopia"] (some "nestopia") = some "nestopia" ∧
    resolveEJSCore ["fceumm", "nestopia"] (some "quicknes") = some "fceumm" ∧
    resolveEJSCore ["fceumm", "nestopia"] none = some "fceumm" :=
  ⟨(ejs_core_resolution ["fceumm", "nestopia"] "nestopia").1 (by decide),
   (ejs_core_resolution ["fceumm", "nestopia"] "quicknes").2.1 (by decide),
   (ejs_core_resolution ["fceumm", "nestopia"] "quicknes").2.2⟩

/-- Claim C10: the cheat-fetch wrapper is total at its interface - for every
backend outcome it resolves (never an escaped exception), with the empty list
on a rejected request or a null/undefined body and the fetched list
otherwise. -/
theorem fetchCheatCodes_total (backend : FetchOutcome) (cs : List CheatCode) :
    (fetchCheatCodesE backend).isOk = true ∧
    fetchCheatCodesE FetchOutcome.rejected =
      Except.ok { codes := [],
                  errorNotices := ["Failed to fetch cheat codes from server"],
                  errorLogs := ["Error fetching cheat codes"] } ∧
    fetchCheatCodesE FetchOutcome.resolvedNull =
      Except.ok { codes := [], errorNotices := [], errorLogs := [] } ∧
    fetchCheatCodesE (FetchOutcome.resolvedList cs) =
      Except.ok { codes := cs, errorNotices := [], errorLogs := [] } := by
  refine ⟨?_, rfl, rfl, rfl⟩
  cases backend <;> rfl

/-- Clearing the pending slot leaves it empty. -/
theorem clearPendingTimer_pending (s : SessionState) :
    (clearPendingTimer s).pendingTimer = none := by
  unfold clearPendingTimer
  cases h : s.pendingTimer <;> simp [h]

/-- Teardown leaves the pending slot empty. -/
theorem onBeforeUnmountStep_pending (s : SessionState) :
    (onBeforeUnmountStep s).pendingTimer = none := by
  simp [onBeforeUnmountStep, clearPendingTimer_pending]

/-- The initial mounted state satisfies the timer invariant. -/
theorem timerInv_mounted : TimerInv mountedState := by
  refine ⟨?_, ?_, ?_, ?_⟩ <;> intro id h <;> simp [mountedState] at h

/-- `clearTimeout` preserves the timer invariant. -/
theorem timerInv_clear {s : SessionState} (h : TimerInv s) :
    TimerInv (clearPendingTimer s) := by
  obtain ⟨h1, h2, h3, h4⟩ := h
  unfold clearPendingTimer
  cases hp : s.pendingTimer with
  | none => exact ⟨h1, h2, h3, h4⟩
  | some p =>
    refine ⟨?_, ?_, ?_, ?_⟩
    · intro id hid
      simp at hid
    · intro id hid
      simp [List.mem_append] at hid
      cases hid with
      | inl hin => exact h2 id hin
      | inr heq => exact heq ▸ (h1 p hp).1
    · exact h3
    · intro id hid
      simp [List.mem_append] at hid
      cases hid with
      | inl hin => exact h4 id hin
      | inr heq => exact heq ▸ (h1 p hp).2.2

/-- Scheduling a fresh deferred cheat apply preserves the timer invariant. -/
theorem timerInv_schedule {s : SessionState} (h : TimerInv s) :
    TimerInv (scheduleCheatUpdate s) := by
  obtain ⟨h1, h2, h3, h4⟩ := timerInv_clear h
  unfold scheduleCheatUpdate
  refine ⟨?_, ?_, ?_, ?_⟩
  · intro id hid
    simp at hid
    subst hid
    refine ⟨Nat.lt_succ_self _, ?_, ?_⟩
    · intro hmem
      exact absurd (h2 _ hmem) (lt_irrefl _)
    · intro hmem
      exact absurd (h3 _ hmem) (lt_irrefl _)
  · intro id hid
    exact Nat.lt_succ_of_lt (h2 id hid)
  · intro id hid
    exact Nat.lt_succ_of_lt (h3 id hid)
  · exact h4

/-- The settled game-start body preserves the timer invariant. -/
theorem timerInv_gameStart {s : SessionState} (backend : FetchOutcome)
    (h : TimerInv s) : TimerInv (gameStartSettleStep backend s) := by
  apply timerInv_schedule
  exact h

/-- A timer firing preserves the timer invariant. -/
theorem timerInv_fire {s : SessionState} (em : EmulatorSurface) (id : Nat)
    (h : TimerInv s) : TimerInv (fireTimerStep em id s) := by
  obtain ⟨h1, h2, h3, h4⟩ := h
  unfold fireTimerStep
  by_cases hp : s.pendingTimer = some id
  · simp only [hp, if_pos rfl]
    refine ⟨?_, ?_, ?_, ?_⟩
    · intro j hj
      simp at hj
    · exact h2
    · intro j hj
      simp [List.mem_append] at hj
      cases hj with
      | inl hin => exact h3 j hin
      | inr heq => exact heq ▸ (h1 id hp).1
    · intro j hj hmem
      simp [List.mem_append] at hmem
      cases hmem with
      | inl hin => exact h4 j hj hin
      | inr heq => exact (h1 id hp).2.1 (heq ▸ hj)
  · simp only [if_neg hp]
    exact ⟨h1, h2, h3, h4⟩

/-- Teardown preserves the timer invariant. -/
theorem timerInv_unmount {s : SessionState} (h : TimerInv s) :
    TimerInv (onBeforeUnmountStep s) := by
  have hc := timerInv_clear h
  exact hc

/-- Every session step preserves the timer invariant. -/
theorem timerInv_step {s : SessionState} (em : EmulatorSurface) (e : SessionEvent)
    (h : TimerInv s) : TimerInv (step em s e) := by
  cases e with
  | gameStartSettle backend => exact timerInv_gameStart backend h
  | timerFire id => exact timerInv_fire em id h
  | unmount => exact timerInv_unmount h

/-- The timer invariant holds along every event sequence. -/
theorem timerInv_run (em : EmulatorSurface) (events : List SessionEvent)
    {s : SessionState} (h : TimerInv s) : TimerInv (runSession em s events) := by
  induction events generalizing s with
  | nil => exact h
  | cons e t ih => exact ih (timerInv_step em e h)

/-- Scheduling from a state with generation `p` pending cancels `p` and
installs a different fresh generation. -/
theorem schedule_cancels_pending {s : SessionState} {p : Nat}
    (hinv : TimerInv s) (hp : s.pendingTimer = some p) (backend : FetchOutcome) :
    p ∈ (gameStartSettleStep backend s).cancelLog ∧
    (gameStartSettleStep backend s).pendingTimer ≠ some p := by
  have hlt : p < s.nextTimerId := (hinv.1 p hp).1
  constructor
  · simp [gameStartSettleStep, scheduleCheatUpdate, clearPendingTimer, hp]
  · simp [gameStartSettleStep, scheduleCheatUpdate, clearPendingTimer, hp]
    exact fun h => absurd (h ▸ hlt) (lt_irrefl _)

/-- Claim C3: along every event sequence from the mounted state, a cancelled
(superseded) timer generation never executes its native cheat-table write
sequence, and settling a new game start while a generation is pending first
cancels that generation and replaces it with a different one - so at most one
deferred cheat apply is outstanding and two generations never both run. -/
theorem pendingSyncTimer_single_generation (em : EmulatorSurface)
    (events : List SessionEvent) (backend : FetchOutcome) :
    (∀ id, id ∈ (runSession em mountedState events).cancelLog →
        id ∉ (runSession em mountedState events).firedGens) ∧
    (∀ p, (runSession em mountedState events).pendingTimer = some p →
        p ∈ (step em (runSession em mountedState events)
              (SessionEvent.gameStartSettle backend)).cancelLog ∧
        (step em (runSession em mountedState events)
              (SessionEvent.gameStartSettle backend)).pendingTimer ≠ some p) := by
  have hinv := timerInv_run em events timerInv_mounted
  constructor
  · exact hinv.2.2.2
  · intro p hp
    exact schedule_cancels_pending hinv hp backend

/-- Witness for C3 on two rapid game-start settlements: generation 0 is
cancelled by the second schedule and never fires, and scheduling from the
state with generation 1 pending cancels 1. -/
theorem pendingSyncTimer_single_generation_witness :
    0 ∉ (runSession fullSurface mountedState twoStartsEvents).firedGens ∧
    1 ∈ (step fullSurface (runSession fullSurface mountedState twoStartsEvents)
          (SessionEvent.gameStartSettle FetchOutcome.resolvedNull)).cancelLog :=
  ⟨(pendingSyncTimer_single_generation fullSurface twoStartsEvents
      FetchOutcome.resolvedNull).1 0 (by decide),
   ((pendingSyncTimer_single_generation fullSurface twoStartsEvents
      FetchOutcome.resolvedNull).2 1 (by decide)).1⟩

/-- A timer firing against an empty pending slot changes nothing. -/
theorem fireTimer_noop {s : SessionState} (em : EmulatorSurface) (id : Nat)
    (h : s.pendingTimer = none) : fireTimerStep em id s = s := by
  simp [fireTimerStep, h]

/-- A run of timer-fire events from a state with no pending timer is inert. -/
theorem run_timerFires_inert (em : EmulatorSurface) (post : List SessionEvent)
    {s : SessionState} (hp : s.pendingTimer = none)
    (hpost : post.all isTimerFire = true) : runSession em s post = s := by
  induction post with
  | nil => rfl
  | cons e t ih =>
    cases e with
    | timerFire id =>
      have hstep : step em s (SessionEvent.timerFire id) = s := fireTimer_noop em id hp
      have ht : t.all isTimerFire = true := by
        rw [List.all_cons] at hpost
        exact (Bool.and_eq_true_iff.mp hpost).2
      calc runSession em s (SessionEvent.timerFire id :: t)
          = runSession em (step em s (SessionEvent.timerFire id)) t := rfl
        _ = runSession em s t := by rw [hstep]
        _ = s := ih ht
    | gameStartSettle backend =>
      simp [List.all_cons, isTimerFire] at hpost
    | unmount =>
      simp [List.all_cons, isTimerFire] at hpost

/-- Claim C4: when the session unmounts while a cheat-apply timer may still be
pending, and the only session events after unmount are browser timer firings,
the native cheat-table call log never grows past its value at unmount - the
unmount cancels the pending timer and no fired timer can trigger the deferred
apply afterwards. -/
theorem unmount_blocks_cheat_apply (em : EmulatorSurface)
    (pre post : List SessionEvent) (hpost : post.all isTimerFire = true) :
    (runSession em mountedState (pre ++ SessionEvent.unmount :: post)).nativeLog =
      (runSession em mountedState (pre ++ [SessionEvent.unmount])).nativeLog := by
  have hsplit : pre ++ SessionEvent.unmount :: post =
      (pre ++ [SessionEvent.unmount]) ++ post := by simp
  rw [hsplit]
  have hrun : runSession em mountedState ((pre ++ [SessionEvent.unmount]) ++ post) =
      runSession em (runSession em mountedState (pre ++ [SessionEvent.unmount])) post := by
    simp [runSession, List.foldl_append]
  rw [hrun]
  have hpend : (runSession em mountedState
      (pre ++ [SessionEvent.unmount])).pendingTimer = none := by
    have : runSession em mountedState (pre ++ [SessionEvent.unmount]) =
        onBeforeUnmountStep (runSession em mountedState pre) := by
      simp [runSession, List.foldl_append, List.foldl, step]
    rw [this]
    exact onBeforeUnmountStep_pending _
  rw [run_timerFires_inert em post hpend hpost]

/-- Witness for C4: a game start schedules generation 0, the session
unmounts, and the browser then fires timer 0 - the native log stays as it was
at unmount. -/
theorem unmount_blocks_cheat_apply_witness :
    (runSession fullSurface mountedState
        ([SessionEvent.gameStartSettle FetchOutcome.resolvedNull] ++
          SessionEvent.unmount :: [SessionEvent.timerFire 0])).nativeLog =
      (runSession fullSurface mountedState
        ([SessionEvent.gameStartSettle FetchOutcome.resolvedNull] ++
          [SessionEvent.unmount])).nativeLog :=
  unmount_blocks_cheat_apply fullSurface
    [SessionEvent.gameStartSettle FetchOutcome.resolvedNull]
    [SessionEvent.timerFire 0] (by decide)

/-- Claim C6: when the cheat-list fetch rejects, the game-start settlement
leaves the cheat buffer empty, appends exactly one transient error
notification and one console error line, and does not unmount or abort the
session. -/
theorem cheat_fetch_failure_recovers (em : EmulatorSurface) (s : SessionState)
    (h : s.unmounted = false) :
    (step em s (SessionEvent.gameStartSettle FetchOutcome.rejected)).ejsCheats = [] ∧
    (step em s (SessionEvent.gameStartSettle FetchOutcome.rejected)).notices =
      s.notices ++ ["Failed to fetch cheat codes from server"] ∧
    (step em s (SessionEvent.gameStartSettle FetchOutcome.rejected)).errorLogs =
      s.errorLogs ++ ["Error fetching cheat codes"] ∧
    (step em s (SessionEvent.gameStartSettle FetchOutcome.rejected)).unmounted = false := by
  cases hp : s.pendingTimer <;>
    simp [step, gameStartSettleStep, loadCheatCodesRun, fetchCheatCodesE,
      getCheatCodesResult, scheduleCheatUpdate, clearPendingTimer, hp, h]

/-- Witness for C6 at the freshly mounted session. -/
theorem cheat_fetch_failure_recovers_witness :
    (step fullSurface mountedState
        (SessionEvent.gameStartSettle FetchOutcome.rejected)).ejsCheats = [] ∧
    (step fullSurface mountedState
        (SessionEvent.gameStartSettle FetchOutcome.rejected)).notices =
      mountedState.notices ++ ["Failed to fetch cheat codes from server"] ∧
    (step fullSurface mountedState
        (SessionEvent.gameStartSettle FetchOutcome.rejected)).errorLogs =
      mountedState.errorLogs ++ ["Error fetching cheat codes"] ∧
    (step fullSurface mountedState
        (SessionEvent.gameStartSettle FetchOutcome.rejected)).unmounted = false :=
  cheat_fetch_failure_recovers fullSurface mountedState rfl

/-- Claim C9, counterexample: teardown does not unregister every callback the
session registered - the `window.EJS_onGameStart` family stays assigned after
`onBeforeUnmount` runs on the mounted session. -/
theorem teardown_leaves_ejs_callbacks :
    ¬ (onBeforeUnmountStep mountedState).ejsGameStartRegistered = false := by
  decide

/-- Claim C9, amended: teardown cancels any pending cheat-apply timer,
unregisters the two emitter callbacks the session registered (the
`window.EJS_*` global callbacks stay assigned), clears the playing and
fullscreen flags, and is idempotent - a second run changes nothing and
releases (cancels) nothing further. -/
theorem teardown_idempotent (s : SessionState) :
    onBeforeUnmountStep (onBeforeUnmountStep s) = onBeforeUnmountStep s ∧
    (onBeforeUnmountStep s).pendingTimer = none ∧
    (onBeforeUnmountStep s).emitterSaveSel = false ∧
    (onBeforeUnmountStep s).emitterStateSel = false ∧
    (onBeforeUnmountStep s).playing = false ∧
    (onBeforeUnmountStep s).fullScreen = false ∧
    (onBeforeUnmountStep (onBeforeUnmountStep s)).cancelLog =
      (onBeforeUnmountStep s).cancelLog := by
  obtain ⟨ec, pt, nt, cl, fg, nl, no, el, es, est, gr, pl, fs, um⟩ := s
  cases pt <;> simp [onBeforeUnmountStep, clearPendingTimer]

end RommPlayer
